import Mathlib

/-!
# Verification of the contact and newsletter API endpoint handlers

Shallow embedding of the two Astro API routes of this repository
(`src/pages/api/contact.ts` and `src/pages/api/newsletter.ts`) together with
models of the external collaborators they invoke (`checkRateLimit`,
`applySecurityHeaders`, `validateOrigin`, `getClientIP`, the validators, the
email senders and `logError`).  The handlers are modelled as pure functions
from a request environment (the results the collaborators would return for
this request) and the rate-limiter store to a `Response`, a trace of the
collaborator invocations in execution order, and the updated store.
-/

/-- The JSON object a handler serializes with `JSON.stringify`.  Each response
path of the source sets only some of these keys; absent keys are `none`. -/
structure JsonBody where
  success : Bool
  error : Option String := none
  message : Option String := none
  details : Option (List String) := none
  retryAfter : Option Int := none
  remaining : Option Int := none
  deriving Repr, DecidableEq

/-- A `Response` as constructed by the handlers: an HTTP status, an optional
JSON body (`null` for the OPTIONS responses), the explicit headers passed to
the `Response` constructor, and a flag recording whether the response was
passed through the `applySecurityHeaders` collaborator. -/
structure Response where
  status : Nat
  body : Option JsonBody
  headers : List (String × String)
  securityHeadersApplied : Bool := false
  deriving Repr, DecidableEq

/-- Modelled from the spec: `applySecurityHeaders` (utils/securityHeaders.js,
not part of the visible source) is the security-header injection collaborator;
it injects vendor security headers into the given response and returns it,
leaving status and body untouched.  We record its application as a flag on the
response. -/
def applySecurityHeaders (r : Response) : Response :=
  { r with securityHeadersApplied := true }

/-- One observable collaborator invocation made by a handler. -/
inductive Event where
  | calledValidateOrigin
  | calledGetClientIP
  | calledCheckRateLimit
  | parsedBody
  | calledValidator
  | calledEmailSender
  | calledLogError (severity component action endpoint : String)
  | appliedSecurityHeaders
  deriving Repr, DecidableEq

/-- The result of `validateContactForm` / `validateNewsletterForm`: a `valid`
flag, a list of per-field error messages, and the sanitized data (abstracted
to an opaque string) present on success. -/
structure ValidationResult where
  valid : Bool
  errors : List String
  sanitized : Option String
  deriving Repr, DecidableEq

/-- The request environment: everything about the incoming request and the
answers of the collaborators for it that the handler branches on.  `method` is
`request.method`; `originValid` is what `validateOrigin(request)` returns;
`clientIP` is what `getClientIP(request)` returns; `now` is the value of
`Date.now()` during this request (a single clock reading); `jsonOk` is
whether `request.json()` resolves (when false it throws and control reaches
the catch block); `validation` is the result of the validator for the parsed body;
`emailOk` is whether the email sender resolves (when false it rejects and
control reaches the catch block). -/
structure Env where
  method : String
  originValid : Bool
  clientIP : String
  now : Int
  jsonOk : Bool
  validation : ValidationResult
  emailOk : Bool
  deriving Repr, DecidableEq

/-- A per-client rate-limit record: request count and window-reset time. -/
structure RateLimitRecord where
  count : Nat
  resetTime : Int
  deriving Repr, DecidableEq

/-- What `checkRateLimit` returns to the handler. -/
structure RateLimitResult where
  allowed : Bool
  remaining : Int
  resetTime : Int
  deriving Repr, DecidableEq

/-- The shared per-key record store of the rate limiter. -/
abbrev Store := String → Option RateLimitRecord

/-- Write the record of one key into the store. -/
def updateStore (store : Store) (key : String) (r : RateLimitRecord) : Store :=
  fun k => if k = key then some r else store k

/-- Modelled from the spec: `checkRateLimit` (utils/security.js, not part of
the visible source), per spec section 4.1.  One counter per client key over a
rolling window of duration `W` with quota `Q`.  If no record exists or the
window has expired (the current time has passed the reset timestamp), start a
new window with count 1, `allowed := true`, `remaining := Q - 1`.  Otherwise
increment the count; `allowed := count <= Q`; `remaining := max 0 (Q - count)`;
ties (`now = resetTime`) resolve toward incrementing. -/
def checkRateLimit (Q : Nat) (W : Int) (now : Int) (store : Store) (key : String) :
    RateLimitResult × Store :=
  match store key with
  | none =>
      (⟨true, (Q : Int) - 1, now + W⟩, updateStore store key ⟨1, now + W⟩)
  | some r =>
      if now > r.resetTime then
        (⟨true, (Q : Int) - 1, now + W⟩, updateStore store key ⟨1, now + W⟩)
      else
        (⟨decide (r.count + 1 ≤ Q), max 0 ((Q : Int) - (r.count + 1)), r.resetTime⟩,
         updateStore store key ⟨r.count + 1, r.resetTime⟩)

/-- Math.ceil(a / b) for an integer `a` and a positive integer `b`, as in the
expression `Math.ceil((rateLimit.resetTime - Date.now()) / 1000)`. -/
def jsCeilDiv (a b : Int) : Int := -((-a) / b)

/-- The outcome of one handler invocation: the response returned, the trace of
collaborator invocations in execution order, and the rate-limiter store after
the request. -/
structure HandlerOut where
  response : Response
  trace : List Event
  store : Store

/-- The `POST` handler of `src/pages/api/contact.ts` (shown as
src/unnamed/part_000), translated branch by branch from the source. -/
def contactPOST (Q : Nat) (W : Int) (env : Env) (store : Store) : HandlerOut :=
  if env.method ≠ "POST" then
    { response := applySecurityHeaders
        { status := 405
          body := some { success := false, error := some "Method not allowed" }
          headers := [("Content-Type", "application/json")] }
      trace := [Event.appliedSecurityHeaders]
      store := store }
  else if !env.originValid then
    { response := applySecurityHeaders
        { status := 403
          body := some { success := false, error := some "Invalid origin" }
          headers := [("Content-Type", "application/json")] }
      trace := [Event.calledValidateOrigin, Event.appliedSecurityHeaders]
      store := store }
  else
    let rl := checkRateLimit Q W env.now store env.clientIP
    let pre := [Event.calledValidateOrigin, Event.calledGetClientIP,
                Event.calledCheckRateLimit]
    if !rl.1.allowed then
      { response :=
          { status := 429
            body := some { success := false
                           error := some "Too many requests. Please try again later."
                           retryAfter := some (jsCeilDiv (rl.1.resetTime - env.now) 1000) }
            headers := [("Content-Type", "application/json"),
                        ("Retry-After", toString (jsCeilDiv (rl.1.resetTime - env.now) 1000))] }
        trace := pre
        store := rl.2 }
    else if !env.jsonOk then
      -- request.json() threw: control reaches the catch block
      { response := applySecurityHeaders
          { status := 500
            body := some { success := false
                           error := some "Internal server error. Please try again later." }
            headers := [("Content-Type", "application/json")] }
        trace := pre ++ [Event.parsedBody,
                         Event.calledLogError "high" "contact-api" "form-submission" "/api/contact",
                         Event.appliedSecurityHeaders]
        store := rl.2 }
    else if !env.validation.valid then
      { response :=
          { status := 400
            body := some { success := false
                           error := some "Validation failed"
                           details := some env.validation.errors }
            headers := [("Content-Type", "application/json")] }
        trace := pre ++ [Event.parsedBody, Event.calledValidator]
        store := rl.2 }
    else if !env.emailOk then
      -- sendContactEmail rejected: control reaches the catch block
      { response := applySecurityHeaders
          { status := 500
            body := some { success := false
                           error := some "Internal server error. Please try again later." }
            headers := [("Content-Type", "application/json")] }
        trace := pre ++ [Event.parsedBody, Event.calledValidator, Event.calledEmailSender,
                         Event.calledLogError "high" "contact-api" "form-submission" "/api/contact",
                         Event.appliedSecurityHeaders]
        store := rl.2 }
    else
      { response := applySecurityHeaders
          { status := 200
            body := some { success := true
                           message := some "Message sent successfully! We\x27ll get back to you soon."
                           remaining := some rl.1.remaining }
            headers := [("Content-Type", "application/json")] }
        trace := pre ++ [Event.parsedBody, Event.calledValidator, Event.calledEmailSender,
                         Event.appliedSecurityHeaders]
        store := rl.2 }

/-- The `POST` handler of `src/pages/api/newsletter.ts`, translated branch by
branch from the source.  It differs from the contact handler only in the
validator/sender collaborators, the log metadata, the success message, and in
which responses pass through `applySecurityHeaders`. -/
def newsletterPOST (Q : Nat) (W : Int) (env : Env) (store : Store) : HandlerOut :=
  if env.method ≠ "POST" then
    { response := applySecurityHeaders
        { status := 405
          body := some { success := false, error := some "Method not allowed" }
          headers := [("Content-Type", "application/json")] }
      trace := [Event.appliedSecurityHeaders]
      store := store }
  else if !env.originValid then
    { response := applySecurityHeaders
        { status := 403
          body := some { success := false, error := some "Invalid origin" }
          headers := [("Content-Type", "application/json")] }
      trace := [Event.calledValidateOrigin, Event.appliedSecurityHeaders]
      store := store }
  else
    let rl := checkRateLimit Q W env.now store env.clientIP
    let pre := [Event.calledValidateOrigin, Event.calledGetClientIP,
                Event.calledCheckRateLimit]
    if !rl.1.allowed then
      { response :=
          { status := 429
            body := some { success := false
                           error := some "Too many requests. Please try again later."
                           retryAfter := some (jsCeilDiv (rl.1.resetTime - env.now) 1000) }
            headers := [("Content-Type", "application/json"),
                        ("Retry-After", toString (jsCeilDiv (rl.1.resetTime - env.now) 1000))] }
        trace := pre
        store := rl.2 }
    else if !env.jsonOk then
      -- request.json() threw: control reaches the catch block
      { response :=
          { status := 500
            body := some { success := false
                           error := some "Internal server error. Please try again later." }
            headers := [("Content-Type", "application/json")] }
        trace := pre ++ [Event.parsedBody,
                         Event.calledLogError "high" "newsletter-api" "subscription" "/api/newsletter"]
        store := rl.2 }
    else if !env.validation.valid then
      { response :=
          { status := 400
            body := some { success := false
                           error := some "Validation failed"
                           details := some env.validation.errors }
            headers := [("Content-Type", "application/json")] }
        trace := pre ++ [Event.parsedBody, Event.calledValidator]
        store := rl.2 }
    else if !env.emailOk then
      -- sendNewsletterWelcome rejected: control reaches the catch block
      { response :=
          { status := 500
            body := some { success := false
                           error := some "Internal server error. Please try again later." }
            headers := [("Content-Type", "application/json")] }
        trace := pre ++ [Event.parsedBody, Event.calledValidator, Event.calledEmailSender,
                         Event.calledLogError "high" "newsletter-api" "subscription" "/api/newsletter"]
        store := rl.2 }
    else
      { response :=
          { status := 200
            body := some { success := true
                           message := some "Successfully subscribed! Check your email for a welcome message."
                           remaining := some rl.1.remaining }
            headers := [("Content-Type", "application/json")] }
        trace := pre ++ [Event.parsedBody, Event.calledValidator, Event.calledEmailSender]
        store := rl.2 }

/-- The `OPTIONS` handler of the contact endpoint: a static CORS response for
a single named origin, passed through `applySecurityHeaders`.  It ignores the
request entirely. -/
def contactOPTIONS (_env : Env) : Response × List Event :=
  (applySecurityHeaders
     { status := 200
       body := none
       headers := [("Access-Control-Allow-Origin", "https://johnciresi.com"),
                   ("Access-Control-Allow-Methods", "POST, OPTIONS"),
                   ("Access-Control-Allow-Headers", "Content-Type")] },
   [Event.appliedSecurityHeaders])

/-- The `OPTIONS` handler of the newsletter endpoint: a static wildcard CORS
response, returned directly without `applySecurityHeaders`.  It ignores the
request entirely. -/
def newsletterOPTIONS (_env : Env) : Response × List Event :=
  ({ status := 200
     body := none
     headers := [("Access-Control-Allow-Origin", "*"),
                 ("Access-Control-Allow-Methods", "POST, OPTIONS"),
                 ("Access-Control-Allow-Headers", "Content-Type")] },
   [])

/-- Iterate `checkRateLimit` for one key over a list of call times, keeping
only the evolving store. -/
def runCalls (Q : Nat) (W : Int) (key : String) (ts : List Int) (store : Store) : Store :=
  ts.foldl (fun s t => (checkRateLimit Q W t s key).2) store

/-- While the window of a live record has not expired, every further call for
the same key increments its count by one and leaves its reset time fixed. -/
theorem runCalls_live (Q : Nat) (W : Int) (key : String) :
    ∀ (ts : List Int) (store : Store) (c : Nat) (R : Int),
      store key = some ⟨c, R⟩ → (∀ t ∈ ts, t ≤ R) →
      runCalls Q W key ts store key = some ⟨c + ts.length, R⟩ := by
  intro ts
  induction ts with
  | nil =>
    intro store c R h _
    simpa [runCalls] using h
  | cons t ts ih =>
    intro store c R h hle
    have ht : ¬ (t > R) := not_lt.mpr (hle t (by simp))
    have hstep : (checkRateLimit Q W t store key).2 key = some ⟨c + 1, R⟩ := by
      simp [checkRateLimit, h, ht, updateStore]
    have htail : runCalls Q W key ts (checkRateLimit Q W t store key).2 key
        = some ⟨(c + 1) + ts.length, R⟩ :=
      ih _ (c + 1) R hstep (fun u hu => hle u (by simp [hu]))
    have hfold : runCalls Q W key (t :: ts) store
        = runCalls Q W key ts (checkRateLimit Q W t store key).2 := rfl
    have hlen : c + 1 + ts.length = c + (t :: ts).length := by
      simp [List.length_cons]
      omega
    rw [hfold, htail, hlen]

/-- C2: for every non-empty client key, `checkRateLimit` starts a new window
with count 1, `allowed = true`, `remaining = Q - 1` when no record exists or
the window has expired; otherwise it increments the count and returns
`allowed = (count <= Q)` and `remaining = max 0 (Q - count)`; consequently the
(Q+1)-th call within one window for the same key, starting from no record,
returns `allowed = false` with a `resetTime` equal to the window end, which is
in the future whenever the call happens strictly before the window end. -/
theorem checkRateLimit_spec (Q : Nat) (W : Int) (key : String) (hkey : key ≠ "") :
    (∀ (now : Int) (store : Store), store key = none →
      (checkRateLimit Q W now store key).1 = ⟨true, (Q : Int) - 1, now + W⟩ ∧
      (checkRateLimit Q W now store key).2 key = some ⟨1, now + W⟩) ∧
    (∀ (now : Int) (store : Store) (r : RateLimitRecord),
      store key = some r → now > r.resetTime →
      (checkRateLimit Q W now store key).1 = ⟨true, (Q : Int) - 1, now + W⟩ ∧
      (checkRateLimit Q W now store key).2 key = some ⟨1, now + W⟩) ∧
    (∀ (now : Int) (store : Store) (r : RateLimitRecord),
      store key = some r → now ≤ r.resetTime →
      (checkRateLimit Q W now store key).1 =
        ⟨decide (r.count + 1 ≤ Q), max 0 ((Q : Int) - (r.count + 1)), r.resetTime⟩ ∧
      (checkRateLimit Q W now store key).2 key = some ⟨r.count + 1, r.resetTime⟩) ∧
    (∀ (store : Store) (t0 u : Int) (ts : List Int),
      0 < Q → store key = none → ts.length = Q - 1 →
      (∀ t ∈ ts, t ≤ t0 + W) → u ≤ t0 + W →
      (checkRateLimit Q W u
        (runCalls Q W key ts (checkRateLimit Q W t0 store key).2) key).1.allowed = false ∧
      (checkRateLimit Q W u
        (runCalls Q W key ts (checkRateLimit Q W t0 store key).2) key).1.resetTime = t0 + W ∧
      (u < t0 + W →
        u < (checkRateLimit Q W u
          (runCalls Q W key ts (checkRateLimit Q W t0 store key).2) key).1.resetTime)) := by
  refine ⟨?_, ?_, ?_, ?_⟩
  · intro now store h
    constructor <;> simp [checkRateLimit, h, updateStore]
  · intro now store r h hgt
    constructor <;> simp [checkRateLimit, h, hgt, updateStore]
  · intro now store r h hle
    have h2 : ¬ (now > r.resetTime) := not_lt.mpr hle
    constructor <;> simp [checkRateLimit, h, h2, updateStore]
  · intro store t0 u ts hQ h0 hlen hts hu
    have h1 : (checkRateLimit Q W t0 store key).2 key = some ⟨1, t0 + W⟩ := by
      simp [checkRateLimit, h0, updateStore]
    have h2 : runCalls Q W key ts (checkRateLimit Q W t0 store key).2 key
        = some ⟨1 + ts.length, t0 + W⟩ :=
      runCalls_live Q W key ts _ 1 (t0 + W) h1 hts
    have hcount : 1 + ts.length = Q := by omega
    rw [hcount] at h2
    have h3 : ¬ (u > t0 + W) := not_lt.mpr hu
    have hfalse : decide (Q + 1 ≤ Q) = false := by simp
    set s2 := runCalls Q W key ts (checkRateLimit Q W t0 store key).2
    refine ⟨?_, ?_, ?_⟩
    · simp [checkRateLimit, h2, h3, hfalse]
    · simp [checkRateLimit, h2, h3]
    · intro hlt
      simpa [checkRateLimit, h2, h3] using hlt

/-- Witness for C2: with quota 2 and window 1000, for key "1.2.3.4" and an
empty store, the first call at time 0 opens a window and the third call at
time 7 (after a second call at time 5) is rejected. -/
theorem checkRateLimit_spec_witness :
    ("1.2.3.4" : String) ≠ "" ∧ 0 < 2 ∧
    (checkRateLimit 2 1000 7
      (runCalls 2 1000 "1.2.3.4" [5]
        (checkRateLimit 2 1000 0 (fun _ => none) "1.2.3.4").2) "1.2.3.4").1.allowed = false := by
  refine ⟨by decide, by decide, ?_⟩
  exact ((checkRateLimit_spec 2 1000 "1.2.3.4" (by decide)).2.2.2
    (fun _ => none) 0 7 [5] (by decide) rfl (by decide) (by decide) (by decide)).1

/-- C1: a POST request to either endpoint whose origin is missing or invalid
(`validateOrigin` returns false) receives a 403 before any rate-limit or
validation logic executes: `checkRateLimit`, body parsing, the form validator
and the email sender are never invoked for that request, and the rate-limit
store is untouched. -/
theorem invalid_origin_403_short_circuits (Q : Nat) (W : Int) (env : Env) (store : Store)
    (hm : env.method = "POST") (ho : env.originValid = false) :
    (contactPOST Q W env store).response.status = 403 ∧
    Event.calledCheckRateLimit ∉ (contactPOST Q W env store).trace ∧
    Event.parsedBody ∉ (contactPOST Q W env store).trace ∧
    Event.calledValidator ∉ (contactPOST Q W env store).trace ∧
    Event.calledEmailSender ∉ (contactPOST Q W env store).trace ∧
    (contactPOST Q W env store).store = store ∧
    (newsletterPOST Q W env store).response.status = 403 ∧
    Event.calledCheckRateLimit ∉ (newsletterPOST Q W env store).trace ∧
    Event.parsedBody ∉ (newsletterPOST Q W env store).trace ∧
    Event.calledValidator ∉ (newsletterPOST Q W env store).trace ∧
    Event.calledEmailSender ∉ (newsletterPOST Q W env store).trace ∧
    (newsletterPOST Q W env store).store = store := by
  refine ⟨?_, ?_, ?_, ?_, ?_, ?_, ?_, ?_, ?_, ?_, ?_, ?_⟩ <;>
    simp [contactPOST, newsletterPOST, hm, ho, applySecurityHeaders]

/-- Witness for C1 at a concrete POST request with an invalid origin. -/
theorem invalid_origin_403_witness :
    ({ method := "POST", originValid := false, clientIP := "9.9.9.9", now := 3,
       jsonOk := true, validation := ⟨true, [], some "d"⟩, emailOk := true } : Env).method
      = "POST" ∧
    ({ method := "POST", originValid := false, clientIP := "9.9.9.9", now := 3,
       jsonOk := true, validation := ⟨true, [], some "d"⟩, emailOk := true } : Env).originValid
      = false ∧
    (contactPOST 5 60000
      { method := "POST", originValid := false, clientIP := "9.9.9.9", now := 3,
        jsonOk := true, validation := ⟨true, [], some "d"⟩, emailOk := true }
      (fun _ => none)).response.status = 403 := by
  refine ⟨rfl, rfl, ?_⟩
  exact (invalid_origin_403_short_circuits 5 60000 _ (fun _ => none) rfl rfl).1

/-- C3 counterexample: a rate-limited POST to the contact endpoint yields a
429 response that is not passed through `applySecurityHeaders`, refuting the
claim that every response of the contact POST handler passes through it. -/
theorem contact_429_skips_securityHeaders_cex :
    (contactPOST 1 1000
      { method := "POST", originValid := true, clientIP := "8.8.8.8", now := 0,
        jsonOk := true, validation := ⟨true, [], some "d"⟩, emailOk := true }
      (fun _ => some ⟨1, 500⟩)).response.status = 429 ∧
    (contactPOST 1 1000
      { method := "POST", originValid := true, clientIP := "8.8.8.8", now := 0,
        jsonOk := true, validation := ⟨true, [], some "d"⟩, emailOk := true }
      (fun _ => some ⟨1, 500⟩)).response.securityHeadersApplied = false := by
  constructor <;> rfl

/-- C3 (amended): path-by-path security-header coverage of the contact POST
handler: the 405, 403, 200 and both 500 responses pass through
`applySecurityHeaders`; the 429 and 400 responses do not. -/
theorem contact_securityHeaders_coverage (Q : Nat) (W : Int) (env : Env) (store : Store) :
    (env.method ≠ "POST" →
      (contactPOST Q W env store).response.status = 405 ∧
      (contactPOST Q W env store).response.securityHeadersApplied = true) ∧
    (env.method = "POST" → env.originValid = false →
      (contactPOST Q W env store).response.status = 403 ∧
      (contactPOST Q W env store).response.securityHeadersApplied = true) ∧
    (env.method = "POST" → env.originValid = true →
      (checkRateLimit Q W env.now store env.clientIP).1.allowed = false →
      (contactPOST Q W env store).response.status = 429 ∧
      (contactPOST Q W env store).response.securityHeadersApplied = false) ∧
    (env.method = "POST" → env.originValid = true →
      (checkRateLimit Q W env.now store env.clientIP).1.allowed = true →
      env.jsonOk = false →
      (contactPOST Q W env store).response.status = 500 ∧
      (contactPOST Q W env store).response.securityHeadersApplied = true) ∧
    (env.method = "POST" → env.originValid = true →
      (checkRateLimit Q W env.now store env.clientIP).1.allowed = true →
      env.jsonOk = true → env.validation.valid = false →
      (contactPOST Q W env store).response.status = 400 ∧
      (contactPOST Q W env store).response.securityHeadersApplied = false) ∧
    (env.method = "POST" → env.originValid = true →
      (checkRateLimit Q W env.now store env.clientIP).1.allowed = true →
      env.jsonOk = true → env.validation.valid = true → env.emailOk = false →
      (contactPOST Q W env store).response.status = 500 ∧
      (contactPOST Q W env store).response.securityHeadersApplied = true) ∧
    (env.method = "POST" → env.originValid = true →
      (checkRateLimit Q W env.now store env.clientIP).1.allowed = true →
      env.jsonOk = true → env.validation.valid = true → env.emailOk = true →
      (contactPOST Q W env store).response.status = 200 ∧
      (contactPOST Q W env store).response.securityHeadersApplied = true) := by
  refine ⟨?_, ?_, ?_, ?_, ?_, ?_, ?_⟩ <;>
    intros <;> constructor <;> simp_all [contactPOST, applySecurityHeaders]

/-- Witness for C3 (amended): a concrete rate-limited contact request whose
429 response carries no security headers. -/
theorem contact_securityHeaders_coverage_witness :
    (checkRateLimit 1 1000 0 (fun _ => some ⟨1, 500⟩) "8.8.4.4").1.allowed = false ∧
    (contactPOST 1 1000
      { method := "POST", originValid := true, clientIP := "8.8.4.4", now := 0,
        jsonOk := true, validation := ⟨true, [], some "d"⟩, emailOk := true }
      (fun _ => some ⟨1, 500⟩)).response.securityHeadersApplied = false := by
  refine ⟨by decide, ?_⟩
  exact ((contact_securityHeaders_coverage 1 1000
    { method := "POST", originValid := true, clientIP := "8.8.4.4", now := 0,
      jsonOk := true, validation := ⟨true, [], some "d"⟩, emailOk := true }
    (fun _ => some ⟨1, 500⟩)).2.2.1 rfl rfl (by decide)).2

/-- C4 counterexample: a non-POST request to the newsletter endpoint yields a
405 response that is passed through `applySecurityHeaders`, refuting the claim
that none of the newsletter POST handler error paths passes through it. -/
theorem newsletter_405_applies_securityHeaders_cex :
    (newsletterPOST 1 1000
      { method := "GET", originValid := true, clientIP := "8.8.8.8", now := 0,
        jsonOk := true, validation := ⟨true, [], some "d"⟩, emailOk := true }
      (fun _ => none)).response.status = 405 ∧
    (newsletterPOST 1 1000
      { method := "GET", originValid := true, clientIP := "8.8.8.8", now := 0,
        jsonOk := true, validation := ⟨true, [], some "d"⟩, emailOk := true }
      (fun _ => none)).response.securityHeadersApplied = true := by
  constructor <;> rfl

/-- C4 (amended): the newsletter POST handler passes its 405 and 403 responses
through `applySecurityHeaders`, while its 429, 400, both 500, and 200 (success)
responses are returned without it; the newsletter OPTIONS handler responds 200
with static CORS headers and also without `applySecurityHeaders`. -/
theorem newsletter_securityHeaders_coverage (Q : Nat) (W : Int) (env : Env) (store : Store) :
    (env.method ≠ "POST" →
      (newsletterPOST Q W env store).response.status = 405 ∧
      (newsletterPOST Q W env store).response.securityHeadersApplied = true) ∧
    (env.method = "POST" → env.originValid = false →
      (newsletterPOST Q W env store).response.status = 403 ∧
      (newsletterPOST Q W env store).response.securityHeadersApplied = true) ∧
    (env.method = "POST" → env.originValid = true →
      (checkRateLimit Q W env.now store env.clientIP).1.allowed = false →
      (newsletterPOST Q W env store).response.status = 429 ∧
      (newsletterPOST Q W env store).response.securityHeadersApplied = false) ∧
    (env.method = "POST" → env.originValid = true →
      (checkRateLimit Q W env.now store env.clientIP).1.allowed = true →
      env.jsonOk = false →
      (newsletterPOST Q W env store).response.status = 500 ∧
      (newsletterPOST Q W env store).response.securityHeadersApplied = false) ∧
    (env.method = "POST" → env.originValid = true →
      (checkRateLimit Q W env.now store env.clientIP).1.allowed = true →
      env.jsonOk = true → env.validation.valid = false →
      (newsletterPOST Q W env store).response.status = 400 ∧
      (newsletterPOST Q W env store).response.securityHeadersApplied = false) ∧
    (env.method = "POST" → env.originValid = true →
      (checkRateLimit Q W env.now store env.clientIP).1.allowed = true →
      env.jsonOk = true → env.validation.valid = true → env.emailOk = false →
      (newsletterPOST Q W env store).response.status = 500 ∧
      (newsletterPOST Q W env store).response.securityHeadersApplied = false) ∧
    (env.method = "POST" → env.originValid = true →
      (checkRateLimit Q W env.now store env.clientIP).1.allowed = true →
      env.jsonOk = true → env.validation.valid = true → env.emailOk = true →
      (newsletterPOST Q W env store).response.status = 200 ∧
      (newsletterPOST Q W env store).response.securityHeadersApplied = false) ∧
    ((newsletterOPTIONS env).1.status = 200 ∧
     (newsletterOPTIONS env).1.securityHeadersApplied = false ∧
     ("Access-Control-Allow-Origin", "*") ∈ (newsletterOPTIONS env).1.headers) := by
  refine ⟨?_, ?_, ?_, ?_, ?_, ?_, ?_, ?_, ?_, ?_⟩ <;>
    intros <;> simp_all [newsletterPOST, newsletterOPTIONS, applySecurityHeaders]

/-- Witness for C4 (amended): a concrete non-POST newsletter request whose 405
response does carry the security headers, and a concrete successful POST whose
200 response does not. -/
theorem newsletter_securityHeaders_coverage_witness :
    (newsletterPOST 2 1000
      { method := "PUT", originValid := true, clientIP := "7.7.7.7", now := 0,
        jsonOk := true, validation := ⟨true, [], some "d"⟩, emailOk := true }
      (fun _ => none)).response.securityHeadersApplied = true ∧
    (checkRateLimit 2 1000 0 (fun _ => none) "7.7.7.7").1.allowed = true ∧
    (newsletterPOST 2 1000
      { method := "POST", originValid := true, clientIP := "7.7.7.7", now := 0,
        jsonOk := true, validation := ⟨true, [], some "d"⟩, emailOk := true }
      (fun _ => none)).response.securityHeadersApplied = false := by
  refine ⟨?_, by decide, ?_⟩
  · exact ((newsletter_securityHeaders_coverage 2 1000
      { method := "PUT", originValid := true, clientIP := "7.7.7.7", now := 0,
        jsonOk := true, validation := ⟨true, [], some "d"⟩, emailOk := true }
      (fun _ => none)).1 (by decide)).2
  · exact ((newsletter_securityHeaders_coverage 2 1000
      { method := "POST", originValid := true, clientIP := "7.7.7.7", now := 0,
        jsonOk := true, validation := ⟨true, [], some "d"⟩, emailOk := true }
      (fun _ => none)).2.2.2.2.2.2.1 rfl rfl (by decide) rfl rfl rfl).2

/-- C5: for every POST request whose parsed body fails form validation, both
handlers respond 400 with success false, the fixed error string and the
per-field details array, and the email sender is never invoked for that
request. -/
theorem invalid_validation_400_no_email (Q : Nat) (W : Int) (env : Env) (store : Store)
    (hm : env.method = "POST") (ho : env.originValid = true)
    (hall : (checkRateLimit Q W env.now store env.clientIP).1.allowed = true)
    (hj : env.jsonOk = true) (hv : env.validation.valid = false) :
    (contactPOST Q W env store).response.status = 400 ∧
    (contactPOST Q W env store).response.body =
      some { success := false, error := some "Validation failed",
             details := some env.validation.errors } ∧
    Event.calledEmailSender ∉ (contactPOST Q W env store).trace ∧
    (newsletterPOST Q W env store).response.status = 400 ∧
    (newsletterPOST Q W env store).response.body =
      some { success := false, error := some "Validation failed",
             details := some env.validation.errors } ∧
    Event.calledEmailSender ∉ (newsletterPOST Q W env store).trace := by
  refine ⟨?_, ?_, ?_, ?_, ?_, ?_⟩ <;>
    simp [contactPOST, newsletterPOST, hm, ho, hall, hj, hv, applySecurityHeaders]

/-- Witness for C5: a concrete submission failing email validation gets a 400
from the contact handler. -/
theorem invalid_validation_400_witness :
    (checkRateLimit 3 60000 10 (fun _ => none) "6.6.6.6").1.allowed = true ∧
    (contactPOST 3 60000
      { method := "POST", originValid := true, clientIP := "6.6.6.6", now := 10,
        jsonOk := true, validation := ⟨false, ["Invalid email address"], none⟩,
        emailOk := true }
      (fun _ => none)).response.status = 400 := by
  refine ⟨by decide, ?_⟩
  exact (invalid_validation_400_no_email 3 60000
    { method := "POST", originValid := true, clientIP := "6.6.6.6", now := 10,
      jsonOk := true, validation := ⟨false, ["Invalid email address"], none⟩,
      emailOk := true }
    (fun _ => none) rfl rfl (by decide) rfl rfl).1

/-- C6: for every POST request rejected by the rate limiter, both handlers
respond 429 whose body has success false and a retryAfter integer computed
from resetTime as the ceiling of (resetTime - now) / 1000, and whose
Retry-After header carries the same number; the last conjunct states that
`jsCeilDiv a 1000` is exactly that ceiling: 1000 times it is the least
multiple of 1000 at or above `a`. -/
theorem rate_limited_429_retryAfter (Q : Nat) (W : Int) (env : Env) (store : Store)
    (hm : env.method = "POST") (ho : env.originValid = true)
    (hall : (checkRateLimit Q W env.now store env.clientIP).1.allowed = false) :
    (contactPOST Q W env store).response.status = 429 ∧
    (contactPOST Q W env store).response.body =
      some { success := false, error := some "Too many requests. Please try again later.",
             retryAfter := some (jsCeilDiv
               ((checkRateLimit Q W env.now store env.clientIP).1.resetTime - env.now) 1000) } ∧
    ("Retry-After", toString (jsCeilDiv
        ((checkRateLimit Q W env.now store env.clientIP).1.resetTime - env.now) 1000))
      ∈ (contactPOST Q W env store).response.headers ∧
    (newsletterPOST Q W env store).response.status = 429 ∧
    (newsletterPOST Q W env store).response.body =
      some { success := false, error := some "Too many requests. Please try again later.",
             retryAfter := some (jsCeilDiv
               ((checkRateLimit Q W env.now store env.clientIP).1.resetTime - env.now) 1000) } ∧
    ("Retry-After", toString (jsCeilDiv
        ((checkRateLimit Q W env.now store env.clientIP).1.resetTime - env.now) 1000))
      ∈ (newsletterPOST Q W env store).response.headers ∧
    (∀ a : Int, a ≤ 1000 * jsCeilDiv a 1000 ∧ 1000 * jsCeilDiv a 1000 < a + 1000) := by
  refine ⟨?_, ?_, ?_, ?_, ?_, ?_, ?_⟩
  · simp [contactPOST, hm, ho, hall]
  · simp [contactPOST, hm, ho, hall]
  · simp [contactPOST, hm, ho, hall]
  · simp [newsletterPOST, hm, ho, hall]
  · simp [newsletterPOST, hm, ho, hall]
  · simp [newsletterPOST, hm, ho, hall]
  · intro a
    unfold jsCeilDiv
    omega

/-- Witness for C6: a concrete rate-limited request receives a 429. -/
theorem rate_limited_429_witness :
    (checkRateLimit 1 1000 100 (fun _ => some ⟨1, 600⟩) "5.5.5.5").1.allowed = false ∧
    (contactPOST 1 1000
      { method := "POST", originValid := true, clientIP := "5.5.5.5", now := 100,
        jsonOk := true, validation := ⟨true, [], some "d"⟩, emailOk := true }
      (fun _ => some ⟨1, 600⟩)).response.status = 429 := by
  refine ⟨by decide, ?_⟩
  exact (rate_limited_429_retryAfter 1 1000
    { method := "POST", originValid := true, clientIP := "5.5.5.5", now := 100,
      jsonOk := true, validation := ⟨true, [], some "d"⟩, emailOk := true }
    (fun _ => some ⟨1, 600⟩) rfl rfl (by decide)).1

/-- C7: any unhandled exception in a POST request that passed the earlier
checks — a body-parse failure, or an email-send failure after successful
validation — is logged with severity high together with the component, action
and endpoint metadata of the endpoint, and both handlers respond 500 with the
same fixed generic body, so the original error is never exposed to the
caller. -/
theorem unhandled_exception_500_logged (Q : Nat) (W : Int) (env : Env) (store : Store)
    (hm : env.method = "POST") (ho : env.originValid = true)
    (hall : (checkRateLimit Q W env.now store env.clientIP).1.allowed = true)
    (hexc : env.jsonOk = false ∨
            (env.jsonOk = true ∧ env.validation.valid = true ∧ env.emailOk = false)) :
    (contactPOST Q W env store).response.status = 500 ∧
    (contactPOST Q W env store).response.body =
      some { success := false,
             error := some "Internal server error. Please try again later." } ∧
    Event.calledLogError "high" "contact-api" "form-submission" "/api/contact"
      ∈ (contactPOST Q W env store).trace ∧
    (newsletterPOST Q W env store).response.status = 500 ∧
    (newsletterPOST Q W env store).response.body =
      some { success := false,
             error := some "Internal server error. Please try again later." } ∧
    Event.calledLogError "high" "newsletter-api" "subscription" "/api/newsletter"
      ∈ (newsletterPOST Q W env store).trace := by
  rcases hexc with hj | ⟨hj, hv, he⟩
  · refine ⟨?_, ?_, ?_, ?_, ?_, ?_⟩ <;>
      simp [contactPOST, newsletterPOST, hm, ho, hall, hj, applySecurityHeaders]
  · refine ⟨?_, ?_, ?_, ?_, ?_, ?_⟩ <;>
      simp [contactPOST, newsletterPOST, hm, ho, hall, hj, hv, he, applySecurityHeaders]

/-- Witness for C7: a concrete request whose body fails to parse yields a 500
from the contact handler. -/
theorem unhandled_exception_500_witness :
    (checkRateLimit 4 60000 0 (fun _ => none) "4.4.4.4").1.allowed = true ∧
    (contactPOST 4 60000
      { method := "POST", originValid := true, clientIP := "4.4.4.4", now := 0,
        jsonOk := false, validation := ⟨true, [], some "d"⟩, emailOk := true }
      (fun _ => none)).response.status = 500 := by
  refine ⟨by decide, ?_⟩
  exact (unhandled_exception_500_logged 4 60000
    { method := "POST", originValid := true, clientIP := "4.4.4.4", now := 0,
      jsonOk := false, validation := ⟨true, [], some "d"⟩, emailOk := true }
    (fun _ => none) rfl rfl (by decide) (Or.inl rfl)).1

/-- C8: for every OPTIONS request to either endpoint, regardless of request
content, the handler responds 200 with the static Access-Control-Allow
headers of its endpoint and invokes neither validation, rate limiting, email
logic nor request-body processing. -/
theorem options_static_cors_no_side_effects (env : Env) :
    (contactOPTIONS env).1.status = 200 ∧
    (contactOPTIONS env).1.body = none ∧
    ("Access-Control-Allow-Origin", "https://johnciresi.com") ∈ (contactOPTIONS env).1.headers ∧
    ("Access-Control-Allow-Methods", "POST, OPTIONS") ∈ (contactOPTIONS env).1.headers ∧
    ("Access-Control-Allow-Headers", "Content-Type") ∈ (contactOPTIONS env).1.headers ∧
    Event.calledCheckRateLimit ∉ (contactOPTIONS env).2 ∧
    Event.parsedBody ∉ (contactOPTIONS env).2 ∧
    Event.calledValidator ∉ (contactOPTIONS env).2 ∧
    Event.calledEmailSender ∉ (contactOPTIONS env).2 ∧
    (newsletterOPTIONS env).1.status = 200 ∧
    (newsletterOPTIONS env).1.body = none ∧
    ("Access-Control-Allow-Origin", "*") ∈ (newsletterOPTIONS env).1.headers ∧
    ("Access-Control-Allow-Methods", "POST, OPTIONS") ∈ (newsletterOPTIONS env).1.headers ∧
    ("Access-Control-Allow-Headers", "Content-Type") ∈ (newsletterOPTIONS env).1.headers ∧
    Event.calledCheckRateLimit ∉ (newsletterOPTIONS env).2 ∧
    Event.parsedBody ∉ (newsletterOPTIONS env).2 ∧
    Event.calledValidator ∉ (newsletterOPTIONS env).2 ∧
    Event.calledEmailSender ∉ (newsletterOPTIONS env).2 := by
  refine ⟨?_, ?_, ?_, ?_, ?_, ?_, ?_, ?_, ?_, ?_, ?_, ?_, ?_, ?_, ?_, ?_, ?_, ?_⟩ <;>
    simp [contactOPTIONS, newsletterOPTIONS, applySecurityHeaders]

/-- C9: for every POST request that passes the method and origin checks, both
handlers invoke `checkRateLimit` on the client IP before the body is parsed:
the resulting store of the request is exactly the store updated by that call
whatever happens afterwards — so a request that later fails JSON parsing or
validation still counts against the rate-limit quota of the client — the trace
begins with the origin check, the client-IP lookup and the rate-limit check,
and whenever the body parse occurs it comes strictly after the rate-limit
check. -/
theorem rateLimit_before_parse (Q : Nat) (W : Int) (env : Env) (store : Store)
    (hm : env.method = "POST") (ho : env.originValid = true) :
    (contactPOST Q W env store).store = (checkRateLimit Q W env.now store env.clientIP).2 ∧
    (contactPOST Q W env store).trace.take 3 =
      [Event.calledValidateOrigin, Event.calledGetClientIP, Event.calledCheckRateLimit] ∧
    (Event.parsedBody ∈ (contactPOST Q W env store).trace →
      (contactPOST Q W env store).trace.indexOf Event.calledCheckRateLimit <
      (contactPOST Q W env store).trace.indexOf Event.parsedBody) ∧
    (newsletterPOST Q W env store).store = (checkRateLimit Q W env.now store env.clientIP).2 ∧
    (newsletterPOST Q W env store).trace.take 3 =
      [Event.calledValidateOrigin, Event.calledGetClientIP, Event.calledCheckRateLimit] ∧
    (Event.parsedBody ∈ (newsletterPOST Q W env store).trace →
      (newsletterPOST Q W env store).trace.indexOf Event.calledCheckRateLimit <
      (newsletterPOST Q W env store).trace.indexOf Event.parsedBody) := by
  rcases Bool.eq_false_or_eq_true
    (checkRateLimit Q W env.now store env.clientIP).1.allowed with hall | hall <;>
  rcases Bool.eq_false_or_eq_true env.jsonOk with hj | hj <;>
  rcases Bool.eq_false_or_eq_true env.validation.valid with hv | hv <;>
  rcases Bool.eq_false_or_eq_true env.emailOk with he | he <;>
  refine ⟨?_, ?_, ?_, ?_, ?_, ?_⟩ <;>
  simp [contactPOST, newsletterPOST, hm, ho, hall, hj, hv, he, applySecurityHeaders]

/-- Witness for C9: a concrete request whose body fails to parse still leaves
the store updated by its rate-limit check. -/
theorem rateLimit_before_parse_witness :
    (contactPOST 2 1000
      { method := "POST", originValid := true, clientIP := "3.3.3.3", now := 0,
        jsonOk := false, validation := ⟨true, [], some "d"⟩, emailOk := true }
      (fun _ => none)).store
      = (checkRateLimit 2 1000 0 (fun _ => none) "3.3.3.3").2 := by
  exact (rateLimit_before_parse 2 1000
    { method := "POST", originValid := true, clientIP := "3.3.3.3", now := 0,
      jsonOk := false, validation := ⟨true, [], some "d"⟩, emailOk := true }
    (fun _ => none) rfl rfl).1

/-- C10: in every 429 response of either handler the retryAfter field of the
body and the Retry-After header carry one and the same integer, computed from
resetTime under the single clock reading `env.now` as the ceiling of
(resetTime - now) / 1000 with no lower-bound clamping; whenever resetTime is
at or before now that computation yields a value at most zero rather than a
positive retry delay. -/
theorem retryAfter_unclamped (Q : Nat) (W : Int) (env : Env) (store : Store)
    (hm : env.method = "POST") (ho : env.originValid = true)
    (hall : (checkRateLimit Q W env.now store env.clientIP).1.allowed = false) :
    (∃ v : Int,
      (contactPOST Q W env store).response.body =
        some { success := false, error := some "Too many requests. Please try again later.",
               retryAfter := some v } ∧
      ("Retry-After", toString v) ∈ (contactPOST Q W env store).response.headers ∧
      (newsletterPOST Q W env store).response.body =
        some { success := false, error := some "Too many requests. Please try again later.",
               retryAfter := some v } ∧
      ("Retry-After", toString v) ∈ (newsletterPOST Q W env store).response.headers ∧
      v = jsCeilDiv ((checkRateLimit Q W env.now store env.clientIP).1.resetTime - env.now) 1000) ∧
    (∀ r n : Int, r ≤ n → jsCeilDiv (r - n) 1000 ≤ 0) := by
  constructor
  · refine ⟨jsCeilDiv
        ((checkRateLimit Q W env.now store env.clientIP).1.resetTime - env.now) 1000,
      ?_, ?_, ?_, ?_, rfl⟩ <;>
      simp [contactPOST, newsletterPOST, hm, ho, hall]
  · intro r n h
    unfold jsCeilDiv
    omega

/-- Witness for C10: a request rejected exactly at the window end (resetTime
equal to now) would be told to retry after at most zero seconds. -/
theorem retryAfter_unclamped_witness :
    (checkRateLimit 1 1000 0 (fun _ => some ⟨1, 0⟩) "2.2.2.2").1.allowed = false ∧
    (0 : Int) ≤ 0 ∧
    jsCeilDiv ((0 : Int) - 0) 1000 ≤ 0 := by
  refine ⟨by decide, by decide, ?_⟩
  exact (retryAfter_unclamped 1 1000
    { method := "POST", originValid := true, clientIP := "2.2.2.2", now := 0,
      jsonOk := true, validation := ⟨true, [], some "d"⟩, emailOk := true }
    (fun _ => some ⟨1, 0⟩) rfl rfl (by decide)).2 0 0 (by decide)
